import Mathlib

/-!
# AutoMetric: the modal picker and the price form of `app/index.js`

A shallow embedding of the page script.  The page state touched by the script
is made explicit: the two script globals (`currentModalField`, `allModalItems`),
the catalog object `modalData`, and the DOM properties the script reads and
writes (title text, search box value, the `show` class of the overlay, the
`innerHTML` of the item list, the values of the form inputs).

JavaScript strings are embedded as Lean strings.  A JavaScript number that
holds an integer is embedded as the integer it holds, with the rounding to a
double and the printing of a double written out; `NaN`, `undefined` and `null`
are `none`.  A handler that can throw returns the page it leaves together with
the exception, if any.
-/

namespace AutoMetric

/-! ## Builtins used by the script -/

/-- The builtin `String.prototype.toLowerCase`.  On a string of ASCII characters
it maps `A`-`Z` to `a`-`z` and keeps the rest; on any other string it follows the
Unicode case tables of the host, which are no part of the repository and are
taken as the parameter `unicodeLower`. -/
def toLowerCase (unicodeLower : String → String) (s : String) : String :=
  if s.data.all (fun c => c.toNat < 128) then ⟨s.data.map Char.toLower⟩ else unicodeLower s

/-- The search loop of `String.prototype.includes`: try the search string at
every start position of `s`, from the left. -/
def includesAt : List Char → List Char → Bool
  | [], search => search.isEmpty
  | c :: rest, search => search.isPrefixOf (c :: rest) || includesAt rest search

/-- The builtin `String.prototype.includes`. -/
def includes (s search : String) : Bool :=
  includesAt s.data search.data

/-- What the expression `modalData[field] || []` can evaluate to: an array of
strings, or a value that is no array, of which the script only reads `length`
(a function inherited from `Object.prototype` has its number of parameters there,
the prototype object itself has no such property). -/
inductive JSItems where
  | array (items : List String)
  | nonArray (length : Option Nat)
  deriving DecidableEq, Repr

/-- The property `length` of the value; `none` is `undefined`. -/
def JSItems.length : JSItems → Option Nat
  | .array items => some items.length
  | .nonArray length => length

/-- The properties every object literal inherits from `Object.prototype`. -/
def objectPrototype (key : String) : Option JSItems :=
  if key = "constructor" then some (.nonArray (some 1))
  else if key = "hasOwnProperty" then some (.nonArray (some 1))
  else if key = "isPrototypeOf" then some (.nonArray (some 1))
  else if key = "propertyIsEnumerable" then some (.nonArray (some 1))
  else if key = "toLocaleString" then some (.nonArray (some 0))
  else if key = "toString" then some (.nonArray (some 0))
  else if key = "valueOf" then some (.nonArray (some 0))
  else if key = "__defineGetter__" then some (.nonArray (some 2))
  else if key = "__defineSetter__" then some (.nonArray (some 2))
  else if key = "__lookupGetter__" then some (.nonArray (some 1))
  else if key = "__lookupSetter__" then some (.nonArray (some 1))
  else if key = "__proto__" then some (.nonArray none)
  else none

/-- The property read `object[key]` on an object literal whose own properties
are arrays of strings: an own property first, an inherited one otherwise. -/
def getProperty (own : String → Option (List String)) (key : String) : Option JSItems :=
  match own key with
  | some items => some (.array items)
  | none => objectPrototype key

/-! ## Page state -/

/-- A DOM event, as far as the script looks at it: the key of a keyboard event
and whether `stopPropagation` was called on it. -/
structure Event where
  key : String
  propagationStopped : Bool
  deriving DecidableEq, Repr

/-- The method `event.stopPropagation()`. -/
def Event.stopPropagation (e : Event) : Event :=
  { e with propagationStopped := true }

/-- The part of the page the picker works on. -/
structure Page where
  /-- own properties of the object `modalData`: field identifier to items -/
  modalData : String → Option (List String)
  /-- the global `currentModalField` (`none` is `null`) -/
  currentModalField : Option String
  /-- the global `allModalItems` -/
  allModalItems : JSItems
  /-- the property `textContent` of `#modalTitle` -/
  modalTitle : String
  /-- the property `value` of `#modalSearch` -/
  modalSearch : String
  /-- whether `#modalOverlay` carries the class `show` -/
  overlayShow : Bool
  /-- the property `innerHTML` of `#modalBody` -/
  modalBody : String
  /-- the property `value` of the form inputs, by element id -/
  fields : String → Option String

/-- The catalog as the script declares it: three keys, each with no items. -/
def modalData : String → Option (List String) :=
  fun field =>
    if field = "brand" then some []
    else if field = "model" then some []
    else if field = "town" then some []
    else none

/-- The state right after the script has loaded: both globals at their
declared values, the overlay hidden, over any form. -/
def Page.initial (fields : String → Option String) : Page :=
  { modalData := AutoMetric.modalData
    currentModalField := none
    allModalItems := .array []
    modalTitle := ""
    modalSearch := ""
    overlayShow := false
    modalBody := ""
    fields := fields }

/-- The call `document.getElementById(id)` on a form input: no element has the
empty id. -/
def getElementById (s : Page) (id : String) : Option String :=
  if id = "" then none else s.fields id

/-- Assignment to the property `value` of the input with the given id. -/
def setFieldValue (s : Page) (id value : String) : Page :=
  { s with fields := fun i => if i = id then some value else s.fields i }

/-! ## Rendering -/

/-- The row shown by `populateModalItems` for an empty list. -/
def noItemsAvailable : String :=
  "<div class=\"modal-item\" style=\"color: #999; cursor: default;\">No items available</div>"

/-- The row shown by `filterModalItems` when the filter keeps nothing. -/
def noMatchingItems : String :=
  "<div class=\"modal-item\" style=\"color: #999; cursor: default;\">No matching items</div>"

/-- The template literal of one selectable row. -/
def itemRow (item : String) : String :=
  "<div class=\"modal-item\" onclick=\"selectModalItem('" ++ item ++ "')\">" ++ item ++ "</div>"

/-- The expression `items.map(item => ...).join('')`. -/
def renderRows (items : List String) : String :=
  String.join (items.map itemRow)

/-! ## The picker -/

/-- The function `populateModalItems(items)`.  On a value that is no array and
whose `length` is not 0 the call `items.map` throws, after the global has been
assigned. -/
def populateModalItems (items : JSItems) (s : Page) : Page × Option String :=
  let s := { s with allModalItems := items }
  if items.length = some 0 then
    ({ s with modalBody := noItemsAvailable }, none)
  else
    match items with
    | .array list => ({ s with modalBody := renderRows list }, none)
    | .nonArray _ => (s, some "TypeError: items.map is not a function")

/-- The function `openModal(field, title)`.  The deferred `focus()` call does
not change any property kept in `Page`. -/
def openModal (field title : String) (s : Page) : Page × Option String :=
  let s := { s with currentModalField := some field }
  let s := { s with modalTitle := title }
  let s := { s with modalSearch := "" }
  let s := { s with overlayShow := true }
  populateModalItems ((getProperty s.modalData field).getD (.array [])) s

/-- The function `closeModal(event)`: returns the page and the event. -/
def closeModal (event : Option Event) (s : Page) : Page × Option Event :=
  let event := event.map Event.stopPropagation
  let s := { s with overlayShow := false }
  ({ s with currentModalField := none }, event)

/-- The items kept by the `filter` call of `filterModalItems`, on an array. -/
def filteredItems (unicodeLower : String → String) (allModalItems : List String)
    (search : String) : List String :=
  let searchValue := toLowerCase unicodeLower search
  allModalItems.filter (fun item => includes (toLowerCase unicodeLower item) searchValue)

/-- The function `filterModalItems()`.  On a stored value that is no array the
call `allModalItems.filter` throws and the page stays as it was. -/
def filterModalItems (unicodeLower : String → String) (s : Page) : Page × Option String :=
  match s.allModalItems with
  | .nonArray _ => (s, some "TypeError: allModalItems.filter is not a function")
  | .array items =>
    let filtered := filteredItems unicodeLower items s.modalSearch
    if filtered.length = 0 then
      ({ s with modalBody := noMatchingItems }, none)
    else
      ({ s with modalBody := renderRows filtered }, none)

/-- The function `selectModalItem(value)`.  A target that is `null` or the empty
string is falsy and skips the write; a target naming no element makes the
write throw a `TypeError`, before `closeModal` runs. -/
def selectModalItem (value : String) (s : Page) : Except String Page :=
  match s.currentModalField with
  | some field =>
    if field ≠ "" then
      match getElementById s field with
      | some _ => .ok (closeModal none (setFieldValue s field value)).1
      | none => .error "TypeError: Cannot set properties of null (setting 'value')"
    else .ok (closeModal none s).1
  | none => .ok (closeModal none s).1

/-- The `keydown` listener of the document. -/
def onKeydown (e : Event) (s : Page) : Page :=
  if e.key = "Escape" then (closeModal none s).1 else s

/-- What can happen to the picker between two renderings of the page. -/
inductive Action where
  | openModal (field title : String)
  | closeModal (event : Option Event)
  | typeSearch (text : String)
  | filterModalItems
  | selectModalItem (value : String)
  | keydown (e : Event)

/-- One action on the page.  A handler that throws leaves the page as it is at
the throw. -/
def step (unicodeLower : String → String) (s : Page) : Action → Page
  | .openModal field title => (openModal field title s).1
  | .closeModal event => (closeModal event s).1
  | .typeSearch text => { s with modalSearch := text }
  | .filterModalItems => (filterModalItems unicodeLower s).1
  | .selectModalItem value =>
    match selectModalItem value s with
    | .ok s' => s'
    | .error _ => s
  | .keydown e => onKeydown e s

/-- A sequence of actions, from the left. -/
def run (unicodeLower : String → String) (s : Page) (actions : List Action) : Page :=
  actions.foldl (step unicodeLower) s

/-! ## The price form: collecting the inputs -/

/-- The white space that `parseInt` skips at the start of its argument. -/
def isStrWhiteSpace (c : Char) : Bool :=
  let n := c.toNat
  n = 0x09 || n = 0x0A || n = 0x0B || n = 0x0C || n = 0x0D || n = 0x20 || n = 0xA0 ||
  n = 0x1680 || (0x2000 ≤ n && n ≤ 0x200A) || n = 0x2028 || n = 0x2029 || n = 0x202F ||
  n = 0x205F || n = 0x3000 || n = 0xFEFF

/-- The value of a character as a digit, letters counting from ten. -/
def digitValue (c : Char) : Option Nat :=
  if c.isDigit then some (c.toNat - 48)
  else if c.isLower then some (c.toNat - 87)
  else if c.isUpper then some (c.toNat - 55)
  else none

/-- The digits of the longest leading run of radix-`R` digits. -/
def leadingDigits (R : Nat) : List Char → List Nat
  | [] => []
  | c :: rest =>
    match digitValue c with
    | some d => if d < R then d :: leadingDigits R rest else []
    | none => []

/-- The integer written by a list of radix-`R` digits. -/
def digitsValue (R : Nat) (ds : List Nat) : Nat :=
  ds.foldl (fun acc d => acc * R + d) 0

/-- The number of binary digits of a natural number. -/
def bitLengthAux : Nat → Nat → Nat
  | 0, _ => 0
  | fuel + 1, n => if n = 0 then 0 else bitLengthAux fuel (n / 2) + 1

/-- The number of binary digits of a natural number: 0 for 0. -/
def bitLength (n : Nat) : Nat :=
  bitLengthAux n n

/-- The double nearest to a natural number, ties to the even significand, as
the integer it holds; `none` is `Infinity`.  Below `2 ^ 53` every integer is a
double. -/
def roundToDouble (n : Nat) : Option Nat :=
  if n < 2 ^ 53 then some n
  else
    let e := bitLength n - 53
    let q := n / 2 ^ e
    let r := n % 2 ^ e
    let half := 2 ^ (e - 1)
    let q := if half < r ∨ (r = half ∧ q % 2 = 1) then q + 1 else q
    if 1024 < bitLength (q * 2 ^ e) then none else some (q * 2 ^ e)

/-- A JavaScript number that holds an integer, or an infinity. -/
inductive JSNumber where
  | finite (n : Int)
  | infinity (negative : Bool)
  deriving DecidableEq, Repr

instance (n : Nat) : OfNat JSNumber n := ⟨.finite n⟩

/-- The builtin `parseInt(string)` with no radix argument; `none` is `NaN`.
The integer that is read is rounded to the nearest double. -/
def parseInt (string : String) : Option JSNumber :=
  let S := string.data.dropWhile isStrWhiteSpace
  let negative : Bool := match S with
    | '-' :: _ => true
    | _ => false
  let S := match S with
    | '-' :: rest => rest
    | '+' :: rest => rest
    | _ => S
  let (R, S) := match S with
    | '0' :: 'x' :: rest => (16, rest)
    | '0' :: 'X' :: rest => (16, rest)
    | _ => (10, S)
  let Z := leadingDigits R S
  if Z.isEmpty then none
  else
    match roundToDouble (digitsValue R Z) with
    | some v => some (.finite (if negative then -(v : Int) else (v : Int)))
    | none => some (.infinity negative)

/-- A value of a Form Snapshot entry. -/
inductive Value where
  | str (s : String)
  | num (n : JSNumber)
  | bool (b : Bool)
  | null
  deriving DecidableEq, Repr

/-- The expression `parseInt(text) || null`: `NaN` and zero are falsy. -/
def parseIntOrNull (text : String) : Value :=
  match parseInt text with
  | some n => if n ≠ 0 then .num n else .null
  | none => .null

/-- What the submit handler reads from the form. -/
structure FormInputs where
  brand : String
  model : String
  yom : String
  engineCC : String
  gear : String
  fuelType : String
  mileage : String
  town : String
  date : String
  condition : String
  leasing : Bool
  airCondition : Bool
  powerSteering : Bool
  powerMirror : Bool
  powerWindow : Bool

/-- The object literal `formData`, as its entries in insertion order. -/
def formData (i : FormInputs) : List (String × Value) :=
  [ ("brand", .str i.brand),
    ("model", .str i.model),
    ("yom", parseIntOrNull i.yom),
    ("engineCC", parseIntOrNull i.engineCC),
    ("gear", .str i.gear),
    ("fuelType", .str i.fuelType),
    ("mileage", parseIntOrNull i.mileage),
    ("town", .str i.town),
    ("date", .str i.date),
    ("condition", .str i.condition),
    ("leasing", .bool i.leasing),
    ("airCondition", .bool i.airCondition),
    ("powerSteering", .bool i.powerSteering),
    ("powerMirror", .bool i.powerMirror),
    ("powerWindow", .bool i.powerWindow) ]

/-! ## The price form: the request -/

/-- Whether a natural number rounds to the double `x`. -/
def roundsTo (v x : Nat) : Bool :=
  roundToDouble v == some x

/-- The search of `Number::toString` for the decimal with the fewest significant
digits that still rounds to the double `x`, which has `d` digits: with `k`
significant digits the candidates are the two multiples of `10 ^ (d - k)` around
`x`; of two that do, the one nearer to `x` is taken, the even one on a tie. -/
def shortestDecimalFrom (x d : Nat) : Nat → Nat → Nat
  | 0, _ => x
  | fuel + 1, k =>
    let p := 10 ^ (d - k)
    let lo := x / p * p
    let hi := lo + p
    if roundsTo lo x then
      if roundsTo hi x then
        if x - lo < hi - x then lo
        else if hi - x < x - lo then hi
        else if lo / p % 2 = 0 then lo else hi
      else lo
    else if roundsTo hi x then hi
    else shortestDecimalFrom x d fuel (k + 1)

/-- The shortest decimal that rounds to the double `x`, as a number. -/
def shortestDecimal (x : Nat) : Nat :=
  shortestDecimalFrom x (Nat.repr x).length (Nat.repr x).length 1

/-- A digit string without its trailing zeros. -/
def stripTrailingZeros (digits : List Char) : List Char :=
  (digits.reverse.dropWhile (fun c => c = '0')).reverse

/-- The exponent form `d.ddde+n` that `Number::toString` uses from `10 ^ 21` on. -/
def exponentForm (v : Nat) : String :=
  let digits := (Nat.repr v).data
  let exponent := "e+" ++ Nat.repr (digits.length - 1)
  match stripTrailingZeros digits with
  | [] => "0"
  | [d] => ⟨[d]⟩ ++ exponent
  | d :: rest => ⟨d :: '.' :: rest⟩ ++ exponent

/-- The conversion `Number.prototype.toString` on the double nearest to a
natural number.  Below `2 ^ 53` the shortest decimal of a double that holds an
integer is that integer. -/
def natToString (m : Nat) : String :=
  if m < 2 ^ 53 then Nat.repr m
  else
    match roundToDouble m with
    | none => "Infinity"
    | some x =>
      let v := shortestDecimal x
      if v < 10 ^ 21 then Nat.repr v else exponentForm v

/-- The conversion `Number.prototype.toString` on a number that holds an integer. -/
def numberToString : Int → String
  | .ofNat m => natToString m
  | .negSucc m => "-" ++ natToString (m + 1)

/-- The conversion of a number to a string. -/
def JSNumber.toJSString : JSNumber → String
  | .finite n => numberToString n
  | .infinity false => "Infinity"
  | .infinity true => "-Infinity"

/-- The conversion of a value to a string, applied by `URLSearchParams.append`. -/
def Value.toJSString : Value → String
  | .str s => s
  | .num n => n.toJSString
  | .bool true => "true"
  | .bool false => "false"
  | .null => "null"

/-- The loop over `Object.entries(formData)` that fills `queryParams`. -/
def queryParams (entries : List (String × Value)) : List (String × String) :=
  entries.foldl
    (fun params entry =>
      if entry.2 ≠ Value.null ∧ entry.2 ≠ Value.str "" then
        params ++ [(entry.1, entry.2.toJSString)]
      else params)
    []

/-- The bytes of the UTF-8 encoding of a character. -/
def utf8Bytes (c : Char) : List Nat :=
  let n := c.toNat
  if n < 0x80 then [n]
  else if n < 0x800 then [0xC0 + n / 64, 0x80 + n % 64]
  else if n < 0x10000 then [0xE0 + n / 4096, 0x80 + n / 64 % 64, 0x80 + n % 64]
  else [0xF0 + n / 262144, 0x80 + n / 4096 % 64, 0x80 + n / 64 % 64, 0x80 + n % 64]

/-- One upper-case hexadecimal digit. -/
def hexDigit (n : Nat) : Char :=
  if n < 10 then Char.ofNat (48 + n) else Char.ofNat (55 + n)

/-- The form-urlencoded percent-encoding of one character. -/
def urlencodeChar (c : Char) : List Char :=
  if c = ' ' then ['+']
  else if c.isAlphanum || c = '*' || c = '-' || c = '.' || c = '_' then [c]
  else (utf8Bytes c).flatMap (fun b => ['%', hexDigit (b / 16), hexDigit (b % 16)])

/-- The form-urlencoded encoding of a name or a value. -/
def urlencode (s : String) : String :=
  ⟨s.data.flatMap urlencodeChar⟩

/-- The method `URLSearchParams.prototype.toString`. -/
def paramsToString (params : List (String × String)) : String :=
  "&".intercalate (params.map (fun p => urlencode p.1 ++ "=" ++ urlencode p.2))

/-- The address the submit handler fetches. -/
def requestUrl (i : FormInputs) : String :=
  "http://localhost/price?" ++ paramsToString (queryParams (formData i))

/-! ## The price form: the response -/

/-- A parsed response body: each of the two keys may be missing. -/
structure ResponseData where
  price : Option Int
  predicted_price : Option Int
  deriving DecidableEq, Repr

/-- How the `fetch` call and the `json()` call end. -/
inductive FetchResult where
  /-- the promise of `fetch` rejects: no response at all -/
  | rejected
  /-- a response with its `ok` flag, and its body if it is valid JSON -/
  | response (ok : Bool) (json : Option ResponseData)
  deriving DecidableEq, Repr

/-- The operator `a || b` on optional numbers: `undefined` and zero are
falsy, and the right operand is the result when the left one is falsy. -/
def jsOr (a b : Option Int) : Option Int :=
  match a with
  | some n => if n ≠ 0 then some n else b
  | none => b

/-- The expression `data.price || data.predicted_price || 0`. -/
def selectPrice (data : ResponseData) : Int :=
  (jsOr (jsOr data.price data.predicted_price) (some 0)).getD 0

/-- The class `\w` of the regular expression. -/
def isWordChar (c : Char) : Bool :=
  c.isAlphanum || c = '_'

/-- The lookahead body `(\d{3})+(?!\d)`, matched at the start of a list. -/
def groupsOfThree : List Char → Bool
  | a :: b :: c :: rest =>
    a.isDigit && b.isDigit && c.isDigit &&
      ((match rest with
        | [] => true
        | d :: _ => !d.isDigit) || groupsOfThree rest)
  | _ => false

/-- The whole pattern at one position: `\B`, then the lookahead. -/
def matchesAt (before : Option Char) (rest : List Char) : Bool :=
  ((before.map isWordChar).getD false == (rest.head?.map isWordChar).getD false) &&
    groupsOfThree rest

/-- The global `replace` of the empty match by a comma, position by position. -/
def insertCommas (before : Option Char) : List Char → List Char
  | [] => if matchesAt before [] then [','] else []
  | c :: rest =>
    (if matchesAt before (c :: rest) then [','] else []) ++ c :: insertCommas (some c) rest

/-- The function `formatPrice(price)`. -/
def formatPrice (price : Int) : String :=
  ⟨insertCommas none (numberToString price).data⟩

/-! ## The price form: the submit handler -/

/-- The part of the page the submit handler writes. -/
structure SubmitUI where
  /-- the style property `display` of the button label -/
  btnTextDisplay : String
  /-- whether the loading indicator carries the class `show` -/
  loadingShow : Bool
  /-- the property `disabled` of the button -/
  btnDisabled : Bool
  /-- the property `textContent` of `#priceValue` -/
  priceValue : String
  /-- whether `#priceDisplay` carries the class `show` -/
  priceDisplayShow : Bool
  /-- what was passed to `console.error` -/
  consoleErrors : List String
  deriving DecidableEq, Repr

/-- How a block ends: the page it leaves and the exception it throws, if any. -/
abbrev Completion := SubmitUI × Option String

/-- The statement `try body catch handler finally finalizer`. -/
def tryCatchFinally (body : SubmitUI → Completion) (handler : String → SubmitUI → Completion)
    (finalizer : SubmitUI → Completion) (ui : SubmitUI) : Completion :=
  let afterBody := body ui
  let afterCatch := match afterBody.2 with
    | some error => handler error afterBody.1
    | none => afterBody
  let afterFinally := finalizer afterCatch.1
  match afterFinally.2 with
  | some error => (afterFinally.1, some error)
  | none => (afterFinally.1, afterCatch.2)

/-- The `try` block of the submit handler. -/
def submitTry (i : FormInputs) (fetch : String → FetchResult) (ui : SubmitUI) : Completion :=
  match fetch (requestUrl i) with
  | .rejected => (ui, some "TypeError: Failed to fetch")
  | .response ok json =>
    if !ok then (ui, some "Error: Network response was not ok")
    else
      match json with
      | none => (ui, some "SyntaxError: Unexpected token in JSON")
      | some data =>
        let price := selectPrice data
        let ui := { ui with priceValue := "Rs. " ++ formatPrice price }
        ({ ui with priceDisplayShow := true }, none)

/-- The `catch` block of the submit handler. -/
def submitCatch (error : String) (ui : SubmitUI) : Completion :=
  let ui := { ui with consoleErrors := ui.consoleErrors ++ ["Error: " ++ error] }
  let ui := { ui with priceValue := "Rs. --" }
  ({ ui with priceDisplayShow := true }, none)

/-- The `finally` block of the submit handler. -/
def submitFinally (ui : SubmitUI) : Completion :=
  let ui := { ui with btnTextDisplay := "inline" }
  let ui := { ui with loadingShow := false }
  ({ ui with btnDisabled := false }, none)

/-- The `submit` listener of the form, after the inputs have been read. -/
def submitHandler (i : FormInputs) (fetch : String → FetchResult) (ui : SubmitUI) :
    Completion :=
  let ui := { ui with btnTextDisplay := "none" }
  let ui := { ui with loadingShow := true }
  let ui := { ui with btnDisabled := true }
  tryCatchFinally (submitTry i fetch) submitCatch submitFinally ui

/-- The request failed: no response, a status that is not a success, or a body
that is not JSON. -/
def FetchResult.isFailure : FetchResult → Bool
  | .rejected => true
  | .response ok json => !ok || json.isNone


/-! ## Lemmas on the builtins and the rendering -/

theorem includesAt_iff (s search : List Char) : includesAt s search = true ↔ search <:+: s := by
  induction s with
  | nil => cases search <;> simp [includesAt]
  | cons c rest ih =>
    rw [includesAt, Bool.or_eq_true, ih, List.infix_cons_iff, List.isPrefixOf_iff_prefix]

theorem includesAt_nil (s : List Char) : includesAt s [] = true := by
  cases s <;> simp [includesAt]

theorem includes_iff (s search : String) :
    includes s search = true ↔ search.data <:+: s.data :=
  includesAt_iff s.data search.data

theorem renderRows_ne_noMatchingItems (x : String) (xs : List String) :
    renderRows (x :: xs) ≠ noMatchingItems := by
  intro h
  have hd := congrArg (fun t => t.data.take 25) h
  simp only [renderRows, itemRow, List.map_cons, String.data_join, List.flatten_cons,
    String.data_append, List.append_assoc] at hd
  rw [List.take_append_of_le_length (by decide)] at hd
  revert hd
  decide

theorem filteredItems_eq_filter (u : String → String) (L : List String) (search : String) :
    filteredItems u L search =
      L.filter (fun x => decide ((toLowerCase u search).data <:+: (toLowerCase u x).data)) := by
  unfold filteredItems
  apply List.filter_congr
  intro x _
  rw [Bool.eq_iff_iff, includes_iff]
  simp

theorem filterModalItems_array (u : String → String) (s : Page) (L : List String)
    (h : s.allModalItems = .array L) :
    filterModalItems u s =
      ({ s with modalBody :=
          if filteredItems u L s.modalSearch = [] then noMatchingItems
          else renderRows (filteredItems u L s.modalSearch) }, none) := by
  unfold filterModalItems
  rw [h]
  cases hf : filteredItems u L s.modalSearch <;> simp [hf]

theorem filterModalItems_frame (u : String → String) (s : Page) :
    (filterModalItems u s).1.currentModalField = s.currentModalField ∧
      (filterModalItems u s).1.overlayShow = s.overlayShow ∧
      (filterModalItems u s).1.allModalItems = s.allModalItems := by
  cases h : s.allModalItems with
  | array L =>
    rw [filterModalItems_array u s L h]
    exact ⟨rfl, rfl, h⟩
  | nonArray n =>
    unfold filterModalItems
    rw [h]
    exact ⟨rfl, rfl, h⟩

theorem populateModalItems_frame (items : JSItems) (s : Page) :
    (populateModalItems items s).1.currentModalField = s.currentModalField ∧
      (populateModalItems items s).1.overlayShow = s.overlayShow ∧
      (populateModalItems items s).1.modalSearch = s.modalSearch ∧
      (populateModalItems items s).1.allModalItems = items := by
  unfold populateModalItems
  by_cases hl : items.length = some 0
  · rw [if_pos hl]
    exact ⟨rfl, rfl, rfl, rfl⟩
  · rw [if_neg hl]
    cases items <;> exact ⟨rfl, rfl, rfl, rfl⟩

theorem openModal_frame (field title : String) (s : Page) :
    (openModal field title s).1.currentModalField = some field ∧
      (openModal field title s).1.overlayShow = true ∧
      (openModal field title s).1.modalSearch = "" ∧
      (openModal field title s).1.allModalItems =
        (getProperty s.modalData field).getD (.array []) := by
  unfold openModal
  exact populateModalItems_frame _ _

theorem openModal_array (field title : String) (s : Page) (L : List String)
    (h : (getProperty s.modalData field).getD (.array []) = .array L) :
    openModal field title s =
      ({ s with
          currentModalField := some field
          modalTitle := title
          modalSearch := ""
          overlayShow := true
          allModalItems := .array L
          modalBody := if L = [] then noItemsAvailable else renderRows L }, none) := by
  unfold openModal populateModalItems
  simp only [h]
  cases L <;> simp [JSItems.length]

theorem getProperty_own (s : Page) (field : String) (L : List String)
    (h : s.modalData field = some L) :
    (getProperty s.modalData field).getD (.array []) = .array L := by
  simp [getProperty, h]

theorem getProperty_absent (s : Page) (field : String)
    (h : s.modalData field = none) (hp : objectPrototype field = none) :
    (getProperty s.modalData field).getD (.array []) = .array [] := by
  simp [getProperty, h, hp]

theorem selectModalItem_closes (value : String) (s s' : Page)
    (h : selectModalItem value s = .ok s') :
    s'.currentModalField = none ∧ s'.overlayShow = false := by
  unfold selectModalItem at h
  split at h
  · split at h
    · split at h
      · cases h
        exact ⟨rfl, rfl⟩
      · cases h
    · cases h
      exact ⟨rfl, rfl⟩
  · cases h
    exact ⟨rfl, rfl⟩

theorem closed_iff_preserved (u : String → String) (s : Page) (a : Action)
    (h : s.currentModalField ≠ none ↔ s.overlayShow = true) :
    (step u s a).currentModalField ≠ none ↔ (step u s a).overlayShow = true := by
  cases a with
  | openModal field title =>
    have hf := openModal_frame field title s
    simp [step, hf.1, hf.2.1]
  | closeModal event => simp [step, closeModal]
  | typeSearch text => simpa [step] using h
  | filterModalItems =>
    have hf := filterModalItems_frame u s
    simp only [step, hf.1, hf.2.1]
    exact h
  | selectModalItem value =>
    simp only [step]
    split
    · next s' hs =>
      have := selectModalItem_closes value s s' hs
      simp [this.1, this.2]
    · exact h
  | keydown e =>
    simp only [step, onKeydown]
    split
    · simp [closeModal]
    · exact h

theorem run_preserves (u : String → String) (actions : List Action) (s : Page)
    (h : s.currentModalField ≠ none ↔ s.overlayShow = true) :
    (run u s actions).currentModalField ≠ none ↔ (run u s actions).overlayShow = true := by
  induction actions generalizing s with
  | nil => exact h
  | cons a rest ih => exact ih (step u s a) (closed_iff_preserved u s a h)

theorem toLowerCase_empty (u : String → String) : toLowerCase u "" = "" := by
  simp [toLowerCase]

theorem toLowerCase_ascii (u : String → String) (s : String)
    (h : s.data.all (fun c => c.toNat < 128) = true) : toLowerCase u s = toLowerCase id s := by
  unfold toLowerCase
  rw [if_pos h, if_pos h]

theorem filteredItems_ascii (u : String → String) (L : List String) (search : String)
    (hs : search.data.all (fun c => c.toNat < 128) = true)
    (hL : ∀ x ∈ L, x.data.all (fun c => c.toNat < 128) = true) :
    filteredItems u L search = filteredItems id L search := by
  unfold filteredItems
  rw [toLowerCase_ascii u search hs]
  apply List.filter_congr
  intro x hx
  rw [toLowerCase_ascii u x (hL x hx)]

theorem filteredItems_empty_search (u : String → String) (L : List String) :
    filteredItems u L "" = L := by
  unfold filteredItems
  simp only [toLowerCase_empty]
  apply List.filter_eq_self.mpr
  intro x _
  exact includesAt_nil _


/-! ## The picker: the claims -/

/-- C1: on a stored list `L`, `filterModalItems` does not throw and keeps exactly the
items of `L` whose lower-cased text contains the lower-cased search text as a
contiguous substring, in the order of `L`; it renders one row per kept item, and the
row "No matching items" exactly when nothing is kept; the stored list is the catalog
entry taken by `openModal` and is never narrowed, so a filter after an earlier filter
renders what it renders alone.  On the list Toyota, Honda, TATA the search text "Ta"
renders the rows of Toyota and TATA. -/
theorem filterModalItems_renders_matches (unicodeLower : String → String) (s : Page)
    (L : List String) (hL : s.allModalItems = JSItems.array L) :
    (filterModalItems unicodeLower s).2 = none ∧
      filteredItems unicodeLower L s.modalSearch = L.filter
        (fun x => decide ((toLowerCase unicodeLower s.modalSearch).data <:+:
          (toLowerCase unicodeLower x).data)) ∧
      (filterModalItems unicodeLower s).1.modalBody =
        (if filteredItems unicodeLower L s.modalSearch = [] then noMatchingItems
         else String.join ((filteredItems unicodeLower L s.modalSearch).map itemRow)) ∧
      ((filterModalItems unicodeLower s).1.modalBody = noMatchingItems ↔
        ∀ x ∈ L, ¬ (toLowerCase unicodeLower s.modalSearch).data <:+:
          (toLowerCase unicodeLower x).data) ∧
      (filterModalItems unicodeLower s).1.allModalItems = JSItems.array L ∧
      (∀ field title items, s.modalData field = some items →
        (openModal field title s).2 = none ∧
          (openModal field title s).1.allModalItems = JSItems.array items) ∧
      (∀ s1 s2,
        filterModalItems unicodeLower
            { (filterModalItems unicodeLower { s with modalSearch := s1 }).1 with
              modalSearch := s2 } =
          filterModalItems unicodeLower { s with modalSearch := s2 }) ∧
      (filterModalItems unicodeLower
          { s with allModalItems := JSItems.array ["Toyota", "Honda", "TATA"],
                   modalSearch := "Ta" }).1.modalBody =
        "<div class=\"modal-item\" onclick=\"selectModalItem('Toyota')\">Toyota</div>" ++
          "<div class=\"modal-item\" onclick=\"selectModalItem('TATA')\">TATA</div>" ∧
      (filterModalItems unicodeLower
          { s with allModalItems := JSItems.array ["Toyota", "Honda", "TATA"],
                   modalSearch := "Tax" }).1.modalBody =
        "<div class=\"modal-item\" style=\"color: #999; cursor: default;\">" ++
          "No matching items</div>" := by
  have hbody := filterModalItems_array unicodeLower s L hL
  refine ⟨by rw [hbody], filteredItems_eq_filter _ _ _, by rw [hbody]; rfl, ?_, ?_, ?_, ?_, ?_,
    ?_⟩
  · rw [hbody]
    show (if filteredItems unicodeLower L s.modalSearch = [] then noMatchingItems
      else renderRows (filteredItems unicodeLower L s.modalSearch)) = noMatchingItems ↔ _
    constructor
    · intro h x hx hinfix
      have hmem : x ∈ filteredItems unicodeLower L s.modalSearch := by
        rw [filteredItems_eq_filter]
        exact List.mem_filter.mpr ⟨hx, by simpa using hinfix⟩
      cases hl : filteredItems unicodeLower L s.modalSearch with
      | nil => rw [hl] at hmem; cases hmem
      | cons y ys =>
        rw [hl] at h
        exact renderRows_ne_noMatchingItems y ys (by simpa using h)
    · intro h
      have hnil : filteredItems unicodeLower L s.modalSearch = [] := by
        rw [filteredItems_eq_filter]
        apply List.filter_eq_nil_iff.mpr
        intro x hx
        simpa using h x hx
      simp [hnil]
  · rw [hbody]
    exact hL
  · intro field title items hitems
    rw [openModal_array field title s items (getProperty_own s field items hitems)]
    exact ⟨rfl, rfl⟩
  · intro s1 s2
    rw [filterModalItems_array unicodeLower { s with modalSearch := s1 } L hL,
      filterModalItems_array unicodeLower { s with modalSearch := s2 } L hL]
    exact filterModalItems_array unicodeLower _ L hL
  · rw [filterModalItems_array unicodeLower _ ["Toyota", "Honda", "TATA"] rfl]
    have hkept : filteredItems unicodeLower ["Toyota", "Honda", "TATA"] "Ta" =
        ["Toyota", "TATA"] := by
      rw [filteredItems_ascii unicodeLower _ _ (by decide) (by decide)]
      decide
    simp only [hkept]
    decide
  · rw [filterModalItems_array unicodeLower _ ["Toyota", "Honda", "TATA"] rfl]
    have hkept : filteredItems unicodeLower ["Toyota", "Honda", "TATA"] "Tax" = [] := by
      rw [filteredItems_ascii unicodeLower _ _ (by decide) (by decide)]
      decide
    simp only [hkept]
    decide

/-- C1 on the list Toyota, Honda in the page as loaded, search text "hon". -/
theorem filterModalItems_renders_matches_witness :
    (filterModalItems id
        { Page.initial (fun _ => some "") with
          allModalItems := JSItems.array ["Toyota", "Honda"], modalSearch := "hon" }).2 = none :=
  (filterModalItems_renders_matches id
    { Page.initial (fun _ => some "") with
      allModalItems := JSItems.array ["Toyota", "Honda"], modalSearch := "hon" }
    ["Toyota", "Honda"] rfl).1

/-- C6: in every state reached from a Closed state, and so from the state the script
starts in, by any sequence of openModal, closeModal, typing, filterModalItems,
selectModalItem and key presses, `currentModalField` is non-null exactly when the
overlay carries the class `show`. -/
theorem target_iff_overlay_shown (unicodeLower : String → String) (s : Page)
    (fields : String → Option String) (actions : List Action) :
    ((run unicodeLower { s with currentModalField := none, overlayShow := false }
          actions).currentModalField ≠ none ↔
        (run unicodeLower { s with currentModalField := none, overlayShow := false }
          actions).overlayShow = true) ∧
      ((run unicodeLower (Page.initial fields) actions).currentModalField ≠ none ↔
        (run unicodeLower (Page.initial fields) actions).overlayShow = true) :=
  ⟨run_preserves unicodeLower actions _ (by simp),
    run_preserves unicodeLower actions _ (by simp [Page.initial])⟩

/-- C8, as the code has it: when `modalData[field] || []` is a list `L`, which it is
for a key of the catalog itself and for a key that names no property at all,
`openModal` and then `filterModalItems` with the search box still empty both return
normally; with entries in `L` both render one row per entry in catalog order; with
none, `openModal` renders "No items available" and the filter replaces it by
"No matching items". -/
theorem openModal_then_filter (unicodeLower : String → String) (field title : String)
    (s : Page) (L : List String)
    (h : (getProperty s.modalData field).getD (JSItems.array []) = JSItems.array L) :
    (openModal field title s).2 = none ∧
      (filterModalItems unicodeLower (openModal field title s).1).2 = none ∧
      (openModal field title s).1.modalSearch = "" ∧
      (openModal field title s).1.allModalItems = JSItems.array L ∧
      (openModal field title s).1.modalBody =
        (if L = [] then noItemsAvailable else String.join (L.map itemRow)) ∧
      (filterModalItems unicodeLower (openModal field title s).1).1.modalBody =
        (if L = [] then noMatchingItems else String.join (L.map itemRow)) ∧
      (∀ items, s.modalData field = some items →
        (getProperty s.modalData field).getD (JSItems.array []) = JSItems.array items) ∧
      (s.modalData field = none → objectPrototype field = none →
        (getProperty s.modalData field).getD (JSItems.array []) = JSItems.array []) := by
  have hopen := openModal_array field title s L h
  have hfilter := filterModalItems_array unicodeLower (openModal field title s).1 L
    (by rw [hopen])
  refine ⟨by rw [hopen], by rw [hfilter], by rw [hopen], by rw [hopen], by rw [hopen]; rfl,
    ?_, getProperty_own s field, getProperty_absent s field⟩
  rw [hfilter]
  have hsearch : (openModal field title s).1.modalSearch = "" := by rw [hopen]
  show (if filteredItems unicodeLower L (openModal field title s).1.modalSearch = []
    then noMatchingItems
    else renderRows (filteredItems unicodeLower L (openModal field title s).1.modalSearch)) = _
  rw [hsearch, filteredItems_empty_search]
  rfl

/-- Keys inherited from `Object.prototype` are outside C8 as amended: with `toString`
the stored value is a function of length 0, `openModal` renders "No items available"
and the filter throws; with `constructor` the call `items.map` throws in `openModal`. -/
theorem openModal_inherited_key :
    (openModal "toString" "Select" (Page.initial (fun _ => some ""))).2 = none ∧
      (openModal "toString" "Select" (Page.initial (fun _ => some ""))).1.modalBody =
        noItemsAvailable ∧
      (filterModalItems id
        (openModal "toString" "Select" (Page.initial (fun _ => some ""))).1).2 =
        some "TypeError: allModalItems.filter is not a function" ∧
      (openModal "constructor" "Select" (Page.initial (fun _ => some ""))).2 =
        some "TypeError: items.map is not a function" := by
  decide

/-- C8 on a catalog with two brands: both renderings are the two rows. -/
theorem openModal_then_filter_witness :
    (filterModalItems id (openModal "brand" "Select Brand"
        { Page.initial (fun _ => some "") with
          modalData := fun f => if f = "brand" then some ["Toyota", "Honda"] else none }).1
      ).1.modalBody =
      "<div class=\"modal-item\" onclick=\"selectModalItem('Toyota')\">Toyota</div>" ++
        "<div class=\"modal-item\" onclick=\"selectModalItem('Honda')\">Honda</div>" :=
  (openModal_then_filter id "brand" "Select Brand"
    { Page.initial (fun _ => some "") with
      modalData := fun f => if f = "brand" then some ["Toyota", "Honda"] else none }
    ["Toyota", "Honda"] (by decide)).2.2.2.2.2.1.trans (by decide)

/-- C8 fails as stated: on the page as shipped, `openModal('brand', ...)` renders
"No items available", and `filterModalItems` right after it, with the search box
empty, renders "No matching items" instead. -/
theorem openModal_then_filter_empty_catalog :
    (openModal "brand" "Select Brand" (Page.initial (fun _ => some ""))).2 = none ∧
      (openModal "brand" "Select Brand" (Page.initial (fun _ => some ""))).1.modalSearch = "" ∧
      (openModal "brand" "Select Brand" (Page.initial (fun _ => some ""))).1.modalBody =
        "<div class=\"modal-item\" style=\"color: #999; cursor: default;\">" ++
          "No items available</div>" ∧
      (filterModalItems id (openModal "brand" "Select Brand"
        (Page.initial (fun _ => some ""))).1).2 = none ∧
      (filterModalItems id (openModal "brand" "Select Brand"
        (Page.initial (fun _ => some ""))).1).1.modalBody =
        "<div class=\"modal-item\" style=\"color: #999; cursor: default;\">" ++
          "No matching items</div>" ∧
      (filterModalItems id (openModal "brand" "Select Brand"
        (Page.initial (fun _ => some ""))).1).1.modalBody ≠
        (openModal "brand" "Select Brand" (Page.initial (fun _ => some ""))).1.modalBody := by
  decide

/-- C9, as the code has it: on a page where the session target, when it is a non-empty
identifier, names a form input, `selectModalItem(v)` returns normally with the overlay hidden and the
target cleared; with such a target it sets that input to `v` and leaves every other
input as it was, and with no target it changes no input, so on a Closed picker it
changes nothing. -/
theorem selectModalItem_writes_target (v : String) (s : Page)
    (h : ∀ f, s.currentModalField = some f → f ≠ "" → getElementById s f ≠ none) :
    ∃ s', selectModalItem v s = .ok s' ∧
      s'.overlayShow = false ∧ s'.currentModalField = none ∧
      s'.allModalItems = s.allModalItems ∧ s'.modalBody = s.modalBody ∧
      (∀ f, s.currentModalField = some f →
        (f ≠ "" → getElementById s' f = some v) ∧
          ∀ g, g ≠ f → getElementById s' g = getElementById s g) ∧
      (s.currentModalField = none →
        s'.fields = s.fields ∧ (s.overlayShow = false → s' = s)) := by
  unfold selectModalItem
  cases hf : s.currentModalField with
  | none =>
    refine ⟨_, rfl, rfl, rfl, rfl, rfl, ?_, ?_⟩
    · intro f hf'
      cases hf'
    · intro _
      refine ⟨rfl, ?_⟩
      intro ho
      cases s
      simp_all [closeModal]
  | some f =>
    by_cases hne : f = ""
    · simp only [hne, ne_eq, not_true_eq_false, if_false]
      refine ⟨(closeModal none s).1, rfl, rfl, rfl, rfl, rfl, ?_, ?_⟩
      · intro f' hf'
        cases hf'
        exact ⟨fun hx => absurd rfl hx, fun g _ => rfl⟩
      · intro hnone
        cases hnone
    · have hel := h f hf hne
      cases hg : getElementById s f with
      | none => exact absurd hg hel
      | some old =>
        simp only [hne, ne_eq, not_false_eq_true, if_true, hg]
        refine ⟨(closeModal none (setFieldValue s f v)).1, rfl, rfl, rfl, rfl, rfl, ?_, ?_⟩
        · intro f' hf'
          cases hf'
          refine ⟨?_, ?_⟩
          · intro _
            simp [getElementById, closeModal, setFieldValue, hne]
          · intro g hgf
            simp [getElementById, closeModal, setFieldValue, hgf]
        · intro hnone
          cases hnone

/-- C9 at a picker opened on the brand input: selecting "Toyota" sets it. -/
theorem selectModalItem_writes_target_witness :
    ∃ s', selectModalItem "Toyota"
        (openModal "brand" "Select Brand"
          (Page.initial (fun i => if i = "brand" then some "" else none))).1 = .ok s' ∧
      s'.overlayShow = false ∧ s'.currentModalField = none ∧
      getElementById s' "brand" = some "Toyota" := by
  obtain ⟨s', h1, h2, h3, _, _, h6, _⟩ := selectModalItem_writes_target "Toyota"
    (openModal "brand" "Select Brand"
      (Page.initial (fun i => if i = "brand" then some "" else none))).1
    (by
      intro f hf _
      have h0 : (openModal "brand" "Select Brand"
          (Page.initial (fun i => if i = "brand" then some "" else none))).1.currentModalField
            = some "brand" := by decide
      rw [h0] at hf
      cases hf
      decide)
  exact ⟨s', h1, h2, h3, (h6 "brand" (by decide)).1 (by decide)⟩

/-- C9 fails as stated: after `openModal('color', ...)` on a page with no element
`color`, `selectModalItem('Red')` throws at the write, so `closeModal` does not run and
the picker stays Open with its target. -/
theorem selectModalItem_without_element :
    (openModal "color" "Select Color"
        (Page.initial (fun i => if i = "brand" then some "" else none))).1.currentModalField =
        some "color" ∧
      selectModalItem "Red" (openModal "color" "Select Color"
        (Page.initial (fun i => if i = "brand" then some "" else none))).1 =
        .error "TypeError: Cannot set properties of null (setting 'value')" ∧
      (step id (openModal "color" "Select Color"
          (Page.initial (fun i => if i = "brand" then some "" else none))).1
        (.selectModalItem "Red")).overlayShow = true ∧
      (step id (openModal "color" "Select Color"
          (Page.initial (fun i => if i = "brand" then some "" else none))).1
        (.selectModalItem "Red")).currentModalField = some "color" :=
  ⟨by decide, rfl, by decide, by decide⟩

/-- C10: `closeModal` hides the overlay and clears the target from any state, an
Escape key press does the same, a second `closeModal` changes nothing, so neither
does `closeModal` on a Closed picker or after `selectModalItem`; the form inputs, the
stored list and the rest of the page are left as they were. -/
theorem closeModal_idempotent (s : Page) (event event' : Option Event) (stopped : Bool)
    (v : String) :
    (closeModal event s).1.overlayShow = false ∧
      (closeModal event s).1.currentModalField = none ∧
      onKeydown ⟨"Escape", stopped⟩ s = (closeModal event s).1 ∧
      (closeModal event' (closeModal event s).1).1 = (closeModal event s).1 ∧
      onKeydown ⟨"Escape", stopped⟩ (onKeydown ⟨"Escape", stopped⟩ s) =
        onKeydown ⟨"Escape", stopped⟩ s ∧
      (closeModal event { s with currentModalField := none, overlayShow := false }).1 =
        { s with currentModalField := none, overlayShow := false } ∧
      onKeydown ⟨"Escape", stopped⟩ { s with currentModalField := none, overlayShow := false } =
        { s with currentModalField := none, overlayShow := false } ∧
      (match selectModalItem v s with
        | .ok s' => (closeModal event s').1 = s' ∧ s'.currentModalField = none
        | .error _ => True) ∧
      (closeModal event s).1.fields = s.fields ∧
      (closeModal event s).1.allModalItems = s.allModalItems ∧
      (closeModal event s).1.modalData = s.modalData ∧
      (closeModal event s).1.modalBody = s.modalBody ∧
      (closeModal event s).1.modalSearch = s.modalSearch ∧
      (closeModal event s).1.modalTitle = s.modalTitle := by
  refine ⟨rfl, rfl, ?_, rfl, ?_, rfl, ?_, ?_, rfl, rfl, rfl, rfl, rfl, rfl⟩
  · simp [onKeydown, closeModal]
  · simp [onKeydown, closeModal]
  · simp [onKeydown, closeModal]
  · split
    · next s' hs =>
      obtain ⟨h1, h2⟩ := selectModalItem_closes v s s' hs
      refine ⟨?_, h1⟩
      cases s'
      simp_all [closeModal]
    · trivial


/-! ## The price form: the claims -/

theorem queryParams_foldl (entries : List (String × Value)) (acc : List (String × String)) :
    entries.foldl
        (fun params entry =>
          if entry.2 ≠ Value.null ∧ entry.2 ≠ Value.str "" then
            params ++ [(entry.1, entry.2.toJSString)]
          else params)
        acc =
      acc ++ (entries.filter (fun e => decide (e.2 ≠ Value.null ∧ e.2 ≠ Value.str ""))).map
        (fun e => (e.1, e.2.toJSString)) := by
  induction entries generalizing acc with
  | nil => simp
  | cons e rest ih =>
    rw [List.foldl_cons, ih]
    by_cases h : e.2 ≠ Value.null ∧ e.2 ≠ Value.str ""
    · simp [h]
    · simp [h]

/-- C3 fails on the code at the text "0": `parseInt` succeeds with the integer 0, and
the snapshot records null, because `parseInt(text) || null` takes 0 for a failure.
The snapshot records null exactly when parsing fails or gives 0, and the parsed
integer otherwise. -/
theorem parseIntOrNull_zero_is_null :
    parseInt "0" = some 0 ∧ parseIntOrNull "0" = Value.null ∧
      (formData
        { brand := "Toyota", model := "Axio", yom := "2020", engineCC := "1500",
          gear := "Automatic", fuelType := "Petrol", mileage := "0", town := "Colombo",
          date := "2024-01-01", condition := "New", leasing := false, airCondition := true,
          powerSteering := true, powerMirror := true, powerWindow := true }).lookup "mileage"
        = some Value.null ∧
      parseIntOrNull "2020" = Value.num 2020 ∧ parseIntOrNull "" = Value.null ∧
      parseIntOrNull "abc" = Value.null ∧ parseIntOrNull "12abc" = Value.num 12 ∧
      (∀ text, parseIntOrNull text = Value.null ↔ parseInt text = none ∨ parseInt text = some 0) ∧
      (∀ text n, parseInt text = some n → n ≠ 0 → parseIntOrNull text = Value.num n) := by
  refine ⟨by decide, by decide, by decide, by decide, by decide, by decide, by decide, ?_, ?_⟩
  · intro text
    unfold parseIntOrNull
    cases h : parseInt text with
    | none => simp
    | some n =>
      by_cases hn : n = 0
      · simp [hn]
      · simp [hn]
  · intro text n h hn
    unfold parseIntOrNull
    simp [h, hn]

/-- C4 fails on the code at the body `{price: 0, predicted_price: 500}`: the price
shown is 500, not the present `price` of 0, because `||` takes 0 for a missing key.
The handler shows `price` when it is present and not 0, else `predicted_price` when
that is present, else 0. -/
theorem selectPrice_zero_price_falls_through :
    selectPrice { price := some 0, predicted_price := some 500 } = 500 ∧
      (submitHandler
        { brand := "", model := "", yom := "", engineCC := "", gear := "", fuelType := "",
          mileage := "", town := "", date := "", condition := "", leasing := false,
          airCondition := false, powerSteering := false, powerMirror := false,
          powerWindow := false }
        (fun _ => .response true (some { price := some 0, predicted_price := some 500 }))
        { btnTextDisplay := "", loadingShow := false, btnDisabled := false, priceValue := "",
          priceDisplayShow := false, consoleErrors := [] }).1.priceValue = "Rs. 500" ∧
      (∀ data : ResponseData, selectPrice data =
        match data.price with
        | some p => if p ≠ 0 then p else data.predicted_price.getD 0
        | none => data.predicted_price.getD 0) := by
  refine ⟨by decide, by decide, ?_⟩
  intro data
  unfold selectPrice jsOr
  cases hp : data.price with
  | none =>
    cases hq : data.predicted_price with
    | none => simp
    | some q => by_cases h : q = 0 <;> simp [h]
  | some p =>
    by_cases h : p = 0
    · cases hq : data.predicted_price with
      | none => simp [h]
      | some q => by_cases h' : q = 0 <;> simp [h, h']
    · simp [h]

/-- C7: whatever the request does, the submit handler returns without an exception,
with the button enabled, its label displayed and the loading indicator hidden; when
the request fails (no response, a status that is not a success, or a body that is
not JSON) the price text is exactly "Rs. --", and otherwise it is the formatted price. -/
theorem submitHandler_restores_button (i : FormInputs) (fetch : String → FetchResult)
    (ui : SubmitUI) :
    (submitHandler i fetch ui).2 = none ∧
      (submitHandler i fetch ui).1.btnDisabled = false ∧
      (submitHandler i fetch ui).1.btnTextDisplay = "inline" ∧
      (submitHandler i fetch ui).1.loadingShow = false ∧
      (submitHandler i fetch ui).1.priceDisplayShow = true ∧
      ((fetch (requestUrl i)).isFailure = true →
        (submitHandler i fetch ui).1.priceValue = "Rs. --") ∧
      (∀ data, fetch (requestUrl i) = .response true (some data) →
        (submitHandler i fetch ui).1.priceValue = "Rs. " ++ formatPrice (selectPrice data)) := by
  unfold submitHandler tryCatchFinally submitTry
  cases hr : fetch (requestUrl i) with
  | rejected => simp [submitCatch, submitFinally, FetchResult.isFailure]
  | response ok json =>
    cases ok with
    | false => simp [submitCatch, submitFinally, FetchResult.isFailure]
    | true =>
      cases json with
      | none => simp [submitCatch, submitFinally, FetchResult.isFailure]
      | some data => simp [submitCatch, submitFinally, FetchResult.isFailure]

/-- C7 at a request answered with a status that is not a success. -/
theorem submitHandler_restores_button_witness :
    (submitHandler
        { brand := "", model := "", yom := "", engineCC := "", gear := "", fuelType := "",
          mileage := "", town := "", date := "", condition := "", leasing := false,
          airCondition := false, powerSteering := false, powerMirror := false,
          powerWindow := false }
        (fun _ => .response false none)
        { btnTextDisplay := "", loadingShow := false, btnDisabled := false, priceValue := "",
          priceDisplayShow := false, consoleErrors := [] }).1.priceValue = "Rs. --" :=
  (submitHandler_restores_button _ (fun _ => .response false none) _).2.2.2.2.2.1 (by decide)

theorem intercalate_go_data (sep : String) (as : List String) (acc : String) :
    (String.intercalate.go acc sep as).data =
      acc.data ++ (as.map (fun a => sep.data ++ a.data)).flatten := by
  induction as generalizing acc with
  | nil => simp [String.intercalate.go]
  | cons a rest ih => simp [String.intercalate.go, ih]

theorem list_intercalate_cons (sep a : List Char) (as : List (List Char)) :
    sep.intercalate (a :: as) = a ++ (as.map (fun x => sep ++ x)).flatten := by
  induction as generalizing a with
  | nil => simp [List.intercalate]
  | cons b rest ih =>
    have := ih b
    simp only [List.intercalate, List.intersperse_cons_cons, List.flatten_cons,
      List.map_cons] at this ⊢
    rw [this]
    simp

theorem intercalate_data (sep : String) (as : List String) :
    (sep.intercalate as).data = sep.data.intercalate (as.map String.data) := by
  cases as with
  | nil => rfl
  | cons a rest =>
    rw [String.intercalate, intercalate_go_data, List.map_cons, list_intercalate_cons]
    simp [List.map_map, Function.comp_def]

theorem charOfNat_toNat (n : Nat) : (Char.ofNat n).toNat = n ∨ (Char.ofNat n).toNat = 0 := by
  unfold Char.ofNat
  split
  · left; rfl
  · right; rfl

theorem hexDigit_toNat (n : Nat) :
    (hexDigit n).toNat = 0 ∨ (48 ≤ (hexDigit n).toNat ∧ (hexDigit n).toNat ≤ 57) ∨
      65 ≤ (hexDigit n).toNat := by
  unfold hexDigit
  split
  · rcases charOfNat_toNat (48 + n) with h | h
    · right; left; omega
    · left; exact h
  · rcases charOfNat_toNat (55 + n) with h | h
    · right; right; omega
    · left; exact h

theorem urlencodeChar_no_separator (a c : Char) (h : c ∈ urlencodeChar a) :
    c ≠ '&' ∧ c ≠ '=' := by
  unfold urlencodeChar at h
  split at h
  · simp only [List.mem_singleton] at h
    subst h
    decide
  · split at h
    · next hsafe =>
      simp only [List.mem_singleton] at h
      subst h
      constructor
      · rintro rfl
        revert hsafe
        decide
      · rintro rfl
        revert hsafe
        decide
    · simp only [List.mem_flatMap, List.mem_cons, List.mem_singleton, List.not_mem_nil,
        or_false] at h
      obtain ⟨b, _, hc | hc | hc⟩ := h
      · subst hc
        decide
      · subst hc
        have := hexDigit_toNat (b / 16)
        constructor
        · intro he
          rw [he] at this
          revert this
          decide
        · intro he
          rw [he] at this
          revert this
          decide
      · subst hc
        have := hexDigit_toNat (b % 16)
        constructor
        · intro he
          rw [he] at this
          revert this
          decide
        · intro he
          rw [he] at this
          revert this
          decide

theorem urlencode_no_separator (s : String) (c : Char) (h : c ∈ (urlencode s).data) :
    c ≠ '&' ∧ c ≠ '=' := by
  simp only [urlencode, List.mem_flatMap] at h
  obtain ⟨a, _, hc⟩ := h
  exact urlencodeChar_no_separator a c hc

theorem paramsToString_data (p : String × String) (ps : List (String × String)) :
    (paramsToString (p :: ps)).data =
      ['&'].intercalate ((p :: ps).map
        (fun q => (urlencode q.1).data ++ '=' :: (urlencode q.2).data)) := by
  unfold paramsToString
  rw [intercalate_data]
  simp [List.map_map, Function.comp_def]

theorem paramsToString_splitOn (ps : List (String × String)) (h : ps ≠ []) :
    (paramsToString ps).data.splitOn '&' =
      ps.map (fun q => (urlencode q.1).data ++ '=' :: (urlencode q.2).data) := by
  cases ps with
  | nil => exact absurd rfl h
  | cons p ps =>
    rw [paramsToString_data]
    apply List.splitOn_intercalate
    · intro l hl
      simp only [List.mem_map] at hl
      obtain ⟨q, _, rfl⟩ := hl
      intro hmem
      rcases List.mem_append.mp hmem with h | h
      · exact (urlencode_no_separator _ _ h).1 rfl
      · rcases List.mem_cons.mp h with h | h
        · revert h
          decide
        · exact (urlencode_no_separator _ _ h).1 rfl
    · simp

theorem queryParams_eq_filter (entries : List (String × Value)) :
    queryParams entries =
      (entries.filter (fun e => decide (e.2 ≠ Value.null ∧ e.2 ≠ Value.str ""))).map
        (fun e => (e.1, e.2.toJSString)) := by
  unfold queryParams
  rw [queryParams_foldl]
  simp

theorem natToString_safe (n : Nat) (h : n < 2 ^ 53) : natToString n = Nat.repr n := by
  unfold natToString
  rw [if_pos h]

set_option maxRecDepth 100000 in
theorem requestUrl_filled_form :
    requestUrl
        { brand := "Land Rover", model := "Défender", yom := "2020", engineCC := "abc",
          gear := "Automatic", fuelType := "Petrol", mileage := "", town := "Colombo",
          date := "2024-01-01", condition := "Used", leasing := false, airCondition := true,
          powerSteering := true, powerMirror := false, powerWindow := true } =
      "http://localhost/price?brand=Land+Rover&model=D%C3%A9fender&yom=2020" ++
        "&gear=Automatic&fuelType=Petrol&town=Colombo&date=2024-01-01&condition=Used" ++
        "&leasing=false&airCondition=true&powerSteering=true&powerMirror=false" ++
        "&powerWindow=true" := by
  decide

/-- C2: the parameters appended to `queryParams` are the snapshot entries whose value
is neither null nor the empty string, in snapshot order, each with its key and its
value as a string (a number through `Number.prototype.toString`, which for an integer
below `2 ^ 53` is its decimal digits; a checkbox as true or false, so an unchecked box
is present as `key=false`); the snapshot keys are the fifteen form keys in order; the
query string the handler sends is the `&`-separated list of the encoded `key=value`
pieces, one per kept entry and nothing else; the snapshot of the spec's example gives
`yom=2020&town=Colombo`, and a filled form gives the address written out below. -/
theorem queryParams_keeps_nonempty (entries : List (String × Value)) (i : FormInputs)
    (p : String × String) (ps : List (String × String)) :
    queryParams entries =
        (entries.filter (fun e => decide (e.2 ≠ Value.null ∧ e.2 ≠ Value.str ""))).map
          (fun e => (e.1, e.2.toJSString)) ∧
      (formData i).map Prod.fst =
        ["brand", "model", "yom", "engineCC", "gear", "fuelType", "mileage", "town", "date",
          "condition", "leasing", "airCondition", "powerSteering", "powerMirror",
          "powerWindow"] ∧
      (∀ b : Bool, Value.toJSString (.bool b) = if b then "true" else "false") ∧
      (∀ n : Nat, n < 2 ^ 53 → Value.toJSString (.num (.finite n)) = Nat.repr n) ∧
      (∀ s : String, Value.toJSString (.str s) = s) ∧
      ("leasing", if i.leasing then "true" else "false") ∈ queryParams (formData i) ∧
      ("powerWindow", if i.powerWindow then "true" else "false") ∈ queryParams (formData i) ∧
      requestUrl i = "http://localhost/price?" ++ paramsToString (queryParams (formData i)) ∧
      (paramsToString (queryParams (formData i))).data.splitOn '&' =
        ((formData i).filter
            (fun e => decide (e.2 ≠ Value.null ∧ e.2 ≠ Value.str ""))).map
          (fun e => (urlencode e.1).data ++ '=' :: (urlencode e.2.toJSString).data) ∧
      paramsToString [] = "" ∧
      (paramsToString (p :: ps)).data.splitOn '&' =
        (p :: ps).map (fun q => (urlencode q.1).data ++ '=' :: (urlencode q.2).data) ∧
      ((urlencode p.1).data ++ '=' :: (urlencode p.2).data).splitOn '=' =
        [(urlencode p.1).data, (urlencode p.2).data] ∧
      paramsToString (queryParams
          [("yom", .str "2020"), ("mileage", .str ""), ("town", .str "Colombo")]) =
        "yom=2020&town=Colombo" ∧
      requestUrl
          { brand := "Land Rover", model := "Défender", yom := "2020", engineCC := "abc",
            gear := "Automatic", fuelType := "Petrol", mileage := "", town := "Colombo",
            date := "2024-01-01", condition := "Used", leasing := false, airCondition := true,
            powerSteering := true, powerMirror := false, powerWindow := true } =
        "http://localhost/price?brand=Land+Rover&model=D%C3%A9fender&yom=2020" ++
          "&gear=Automatic&fuelType=Petrol&town=Colombo&date=2024-01-01&condition=Used" ++
          "&leasing=false&airCondition=true&powerSteering=true&powerMirror=false" ++
          "&powerWindow=true" ∧
      paramsToString (queryParams [("yom", parseIntOrNull "1000000000000000000000")]) =
        "yom=1e%2B21" := by
  have hq := queryParams_eq_filter
  have hleasing : ("leasing", if i.leasing then "true" else "false") ∈
      queryParams (formData i) := by
    rw [hq]
    exact List.mem_map.mpr ⟨("leasing", .bool i.leasing),
      List.mem_filter.mpr ⟨by simp [formData], by simp⟩, by cases i.leasing <;> rfl⟩
  refine ⟨hq entries, rfl, ?_, ?_, ?_, hleasing, ?_, rfl, ?_, rfl, ?_, ?_, by decide,
    requestUrl_filled_form, by decide⟩
  · intro b
    cases b <;> rfl
  · intro n hn
    exact natToString_safe n hn
  · intro s
    rfl
  · rw [hq]
    exact List.mem_map.mpr ⟨("powerWindow", .bool i.powerWindow),
      List.mem_filter.mpr ⟨by simp [formData], by simp⟩, by cases i.powerWindow <;> rfl⟩
  · rw [paramsToString_splitOn _ (List.ne_nil_of_mem hleasing), hq, List.map_map]
    rfl
  · exact paramsToString_splitOn _ (by simp)
  · have h : (['='].intercalate [(urlencode p.1).data, (urlencode p.2).data]).splitOn '=' =
        [(urlencode p.1).data, (urlencode p.2).data] := List.splitOn_intercalate _ '='
      (by
        intro l hl
        simp only [List.mem_cons, List.mem_singleton, List.not_mem_nil, or_false] at hl
        rcases hl with rfl | rfl
        · exact fun h => (urlencode_no_separator _ _ h).2 rfl
        · exact fun h => (urlencode_no_separator _ _ h).2 rfl)
      (by simp)
    simpa [List.intercalate] using h

/-- C2 on the spec's example snapshot, with the year 2020 as the number. -/
theorem queryParams_keeps_nonempty_witness :
    Value.toJSString (.num (.finite ((2020 : Nat) : Int))) = Nat.repr 2020 ∧
      paramsToString (queryParams
          [("yom", .str "2020"), ("mileage", .str ""), ("town", .str "Colombo")]) =
        "yom=2020&town=Colombo" :=
  have h := queryParams_keeps_nonempty
    [("yom", .str "2020"), ("mileage", .str ""), ("town", .str "Colombo")]
    { brand := "", model := "", yom := "", engineCC := "", gear := "", fuelType := "",
      mileage := "", town := "", date := "", condition := "", leasing := false,
      airCondition := false, powerSteering := false, powerMirror := false,
      powerWindow := false }
    ("yom", "2020") []
  ⟨h.2.2.2.1 2020 (by decide), h.2.2.2.2.2.2.2.2.2.2.2.2.1⟩

/-! ## Price formatting -/

theorem digitChar_isDigit (d : Nat) (h : d < 10) : (Nat.digitChar d).isDigit = true := by
  interval_cases d <;> decide

theorem toDigitsCore_isDigit (fuel n : Nat) (ds : List Char)
    (h : ∀ c ∈ ds, c.isDigit = true) :
    ∀ c ∈ Nat.toDigitsCore 10 fuel n ds, c.isDigit = true := by
  induction fuel generalizing n ds with
  | zero => simpa [Nat.toDigitsCore] using h
  | succ fuel ih =>
    have hd : ∀ c ∈ Nat.digitChar (n % 10) :: ds, c.isDigit = true := by
      intro c hc
      rcases List.mem_cons.mp hc with rfl | hc
      · exact digitChar_isDigit _ (Nat.mod_lt _ (by decide))
      · exact h c hc
    unfold Nat.toDigitsCore
    simp only
    split
    · exact hd
    · exact ih _ _ hd

theorem toDigitsCore_ne_nil (fuel n : Nat) (ds : List Char) (h : ds ≠ []) :
    Nat.toDigitsCore 10 fuel n ds ≠ [] := by
  induction fuel generalizing n ds with
  | zero => simpa [Nat.toDigitsCore] using h
  | succ fuel ih =>
    unfold Nat.toDigitsCore
    simp only
    split
    · simp
    · exact ih _ _ (by simp)

theorem repr_isDigit (n : Nat) : ∀ c ∈ (Nat.repr n).data, c.isDigit = true := by
  unfold Nat.repr Nat.toDigits
  exact toDigitsCore_isDigit _ _ [] (by simp)

theorem repr_ne_nil (n : Nat) : (Nat.repr n).data ≠ [] := by
  unfold Nat.repr Nat.toDigits Nat.toDigitsCore
  simp only [List.asString]
  split
  · simp
  · exact toDigitsCore_ne_nil _ _ _ (by simp)

theorem groupsOfThree_digits (k : Nat) (ds : List Char) (hk : ds.length ≤ k)
    (h : ∀ c ∈ ds, c.isDigit = true) :
    groupsOfThree ds = true ↔ 0 < ds.length ∧ ds.length % 3 = 0 := by
  induction k generalizing ds with
  | zero =>
    have : ds = [] := List.length_eq_zero.mp (Nat.le_zero.mp hk)
    subst this
    simp [groupsOfThree]
  | succ k ih =>
    match ds, hk, h with
    | [], _, _ => simp [groupsOfThree]
    | [_], _, _ => simp [groupsOfThree]
    | [_, _], _, _ => simp [groupsOfThree]
    | a :: b :: c :: rest, hk, h =>
      have ha := h a (by simp)
      have hb := h b (by simp)
      have hc := h c (by simp)
      have hrest : ∀ x ∈ rest, x.isDigit = true := fun x hx => h x (by simp [hx])
      have hlen : rest.length ≤ k := by
        simp only [List.length_cons] at hk
        omega
      simp only [groupsOfThree, ha, hb, hc, Bool.and_self, Bool.true_and, Bool.or_eq_true,
        List.length_cons]
      rw [ih rest hlen hrest]
      cases rest with
      | nil => simp
      | cons d rest' =>
        have hd := hrest d (by simp)
        simp only [hd, Bool.not_true, List.length_cons]
        constructor
        · rintro (h1 | ⟨_, h2⟩)
          · cases h1
          · omega
        · rintro ⟨_, h2⟩
          right
          omega

theorem isDigit_isWordChar (c : Char) (h : c.isDigit = true) : isWordChar c = true := by
  simp [isWordChar, Char.isAlphanum, h]

theorem insertCommas_filter (before : Option Char) (s : List Char) :
    (insertCommas before s).filter (fun c => c ≠ ',') = s.filter (fun c => c ≠ ',') := by
  induction s generalizing before with
  | nil =>
    unfold insertCommas
    split <;> simp
  | cons c rest ih =>
    unfold insertCommas
    rw [List.filter_append, List.filter_cons, List.filter_cons, ih]
    split <;> simp

theorem insertCommas_inner (ds : List Char) (d : Char) (hd : d.isDigit = true)
    (h : ∀ c ∈ ds, c.isDigit = true) :
    ∃ gs : List (List Char), (∀ g ∈ gs, g.length = 3) ∧
      insertCommas (some d) ds =
        ds.take (ds.length % 3) ++ (gs.map (fun g => [','] ++ g)).flatten ∧
      ds.drop (ds.length % 3) = gs.flatten := by
  induction ds generalizing d with
  | nil => exact ⟨[], by simp, by simp [insertCommas, matchesAt, groupsOfThree], by simp⟩
  | cons c rest ih =>
    have hc := h c (by simp)
    have hrest : ∀ x ∈ rest, x.isDigit = true := fun x hx => h x (by simp [hx])
    obtain ⟨gs, hgs, hins, hdrop⟩ := ih c hc hrest
    have hmatch : matchesAt (some d) (c :: rest) = decide ((rest.length + 1) % 3 = 0) := by
      unfold matchesAt
      have hg := groupsOfThree_digits _ (c :: rest) (Nat.le_refl _) h
      simp only [Option.map_some', Option.getD_some, List.head?_cons,
        isDigit_isWordChar d hd, isDigit_isWordChar c hc, beq_self_eq_true, Bool.true_and]
      rw [Bool.eq_iff_iff, hg]
      simp
    unfold insertCommas
    rw [hmatch, hins]
    by_cases hr : (rest.length + 1) % 3 = 0
    · have h2 : rest.length % 3 = 2 := by omega
      have hlen2 : 2 ≤ rest.length := by omega
      refine ⟨(c :: rest.take 2) :: gs, ?_, ?_, ?_⟩
      · intro g hg
        rcases List.mem_cons.mp hg with rfl | hg
        · simp [List.length_take]
          omega
        · exact hgs g hg
      · simp [hr, h2]
      · rw [h2] at hdrop
        simp only [List.length_cons, hr, List.drop_zero, List.flatten_cons, ← hdrop,
          List.cons_append, List.take_append_drop]
    · have h2 : rest.length % 3 + 1 = (rest.length + 1) % 3 := by omega
      refine ⟨gs, hgs, ?_, ?_⟩
      · simp [hr, ← h2]
      · simp only [List.length_cons, ← h2, List.drop_succ_cons]
        exact hdrop

theorem insertCommas_digits (ds : List Char) (hne : ds ≠ [])
    (h : ∀ c ∈ ds, c.isDigit = true) :
    ∃ (first : List Char) (rest : List (List Char)),
      insertCommas none ds = [','].intercalate (first :: rest) ∧
      (first :: rest).flatten = ds ∧
      1 ≤ first.length ∧ first.length ≤ 3 ∧ ∀ g ∈ rest, g.length = 3 := by
  cases ds with
  | nil => exact absurd rfl hne
  | cons c rest =>
    have hc := h c (by simp)
    have hrest : ∀ x ∈ rest, x.isDigit = true := fun x hx => h x (by simp [hx])
    obtain ⟨gs, hgs, hins, hdrop⟩ := insertCommas_inner rest c hc hrest
    have hmatch : matchesAt none (c :: rest) = false := by
      simp [matchesAt, isDigit_isWordChar c hc]
    refine ⟨c :: rest.take (rest.length % 3), gs, ?_, ?_, ?_, ?_, hgs⟩
    · unfold insertCommas
      rw [hmatch, hins, list_intercalate_cons]
      simp
    · simp only [List.flatten_cons, ← hdrop, List.cons_append, List.take_append_drop]
    · simp
    · have : rest.length % 3 < 3 := Nat.mod_lt _ (by decide)
      simp only [List.length_cons, List.length_take]
      omega

theorem formatPrice_natCast (n : Nat) (h : n < 2 ^ 53) :
    (formatPrice (n : Int)).data = insertCommas none (Nat.repr n).data := by
  show insertCommas none (natToString n).data = _
  rw [natToString_safe n h]

/-- C5, as the code has it: for a non-negative integer `n` below `2 ^ 53`,
`formatPrice(n)` is the decimal digits of `n` cut into groups joined by single commas:
the pieces between the commas, put back together, are the digits of `n`; the first
piece has one to three digits and every later piece exactly three; no comma stands
first and nothing but commas is added, so deleting the commas gives the digits back;
`formatPrice(1234567)` is "1,234,567" and `formatPrice(0)` is "0". -/
theorem formatPrice_groups_of_three (n : Nat) (hn : n < 2 ^ 53) :
    (∃ (first : List Char) (rest : List (List Char)),
        (formatPrice (n : Int)).data = [','].intercalate (first :: rest) ∧
        (formatPrice (n : Int)).data.splitOn ',' = first :: rest ∧
        (first :: rest).flatten = (Nat.repr n).data ∧
        1 ≤ first.length ∧ first.length ≤ 3 ∧ ∀ g ∈ rest, g.length = 3) ∧
      (∀ c ∈ (Nat.repr n).data, c.isDigit = true) ∧
      (formatPrice (n : Int)).data.filter (fun c => c ≠ ',') = (Nat.repr n).data ∧
      formatPrice 1234567 = "1,234,567" ∧ formatPrice 0 = "0" := by
  have hdig := repr_isDigit n
  have hcomma : ∀ c ∈ (Nat.repr n).data, c ≠ ',' := by
    intro c hc he
    have := hdig c hc
    rw [he] at this
    revert this
    decide
  refine ⟨?_, hdig, ?_, by decide, by decide⟩
  · obtain ⟨first, rest, h1, h2, h3, h4, h5⟩ :=
      insertCommas_digits (Nat.repr n).data (repr_ne_nil n) hdig
    refine ⟨first, rest, ?_, ?_, h2, h3, h4, h5⟩
    · rw [formatPrice_natCast n hn, h1]
    · rw [formatPrice_natCast n hn, h1]
      apply List.splitOn_intercalate
      · intro l hl hmem
        have : ',' ∈ (first :: rest).flatten := List.mem_flatten.mpr ⟨l, hl, hmem⟩
        rw [h2] at this
        exact hcomma _ this rfl
      · simp
  · rw [formatPrice_natCast n hn, insertCommas_filter]
    apply List.filter_eq_self.mpr
    intro c hc
    simpa using hcomma c hc

/-- C5 at the largest safe integer: the digits of 9007199254740991 in groups. -/
theorem formatPrice_groups_of_three_witness :
    (formatPrice ((9007199254740991 : Nat) : Int)).data.filter (fun c => c ≠ ',') =
      (Nat.repr 9007199254740991).data :=
  (formatPrice_groups_of_three 9007199254740991 (by decide)).2.2.1

/-- C5 fails as stated: the integer `10 ^ 21` is printed by `toString` as "1e+21", which
`formatPrice` returns unchanged, with no comma, and with an `e` and a `+` that are no
digits of the number; and `2 ^ 69`, which is 590295810358705651712, is printed with its
last digits replaced by zeros. -/
theorem formatPrice_exponent_form :
    formatPrice (10 ^ 21) = "1e+21" ∧
      (formatPrice (10 ^ 21)).data.filter (fun c => c ≠ ',') ≠ (Nat.repr (10 ^ 21)).data ∧
      formatPrice (2 ^ 69) = "590,295,810,358,705,700,000" ∧
      (formatPrice (2 ^ 69)).data.filter (fun c => c ≠ ',') ≠ (Nat.repr (2 ^ 69)).data := by
  decide

end AutoMetric
